import Mathlib

/-!
Verification of the cycle orchestration and scheduling logic of
src/main.py (automatic refund-contestation system).

The file shallowly embeds the code of main.py:

* dates: the wall clock is modelled in whole seconds since the epoch
  (a Nat); strftime "%Y-%m-%d" truncates a timestamp to its calendar
  day (floor division by 86400) and prints it through the standard
  civil-calendar conversion with zero-padded fixed-width fields.
  Python datetime represents years 1 to 9999 only, and every year
  reachable from a nonnegative epoch timestamp (1970 to 9999) prints
  as exactly four digits, so the fixed-width rendering is faithful on
  the representable range.
* run_cycle (main.py lines 38-76) becomes a pure function of the agent
  callback, the page size, the cycle number and the clock at its start;
  its observable effects (the logged period, the summary handed to
  detailed_logger.log_cycle_summary, and the returned dict) are fields
  of its result.
* the scheduler loop of main (lines 135-186) becomes a step function
  `iter` driven by an oracle describing, per cycle, how run_cycle ends
  (returns, raises an Exception, or is hit by KeyboardInterrupt), how
  long it takes, and whether the sleep completes; `runLoop` iterates it,
  and `mainModel` adds the initialization phase (lines 87-133) and the
  two outer exception handlers (lines 188-215), including the Python
  binding semantics of the local variables the handlers read.
-/

namespace AutoAppeal

/-! ## Calendar-day formatting (model of datetime.strftime "%Y-%m-%d") -/

/-- Seconds in one day; timedelta(days=n) is n * 86400 seconds. -/
def secondsPerDay : Nat := 86400

/-- Decimal digit character of n % 10. -/
def digitChar (n : Nat) : Char :=
  if n % 10 = 0 then '0' else if n % 10 = 1 then '1' else if n % 10 = 2 then '2'
  else if n % 10 = 3 then '3' else if n % 10 = 4 then '4' else if n % 10 = 5 then '5'
  else if n % 10 = 6 then '6' else if n % 10 = 7 then '7' else if n % 10 = 8 then '8'
  else '9'

/-- Two-digit zero-padded decimal field (%m, %d). -/
def pad2 (n : Nat) : List Char := [digitChar (n / 10), digitChar n]

/-- Four-digit zero-padded decimal field (%Y on the years 1000-9999). -/
def pad4 (n : Nat) : List Char :=
  [digitChar (n / 1000), digitChar (n / 100), digitChar (n / 10), digitChar n]

/-- Gregorian (year, month, day) of a day count since 1970-01-01,
    the standard era-based civil-from-days conversion used by calendar
    libraries; models the date held by a Python datetime. -/
def civilFromDays (z : Nat) : Nat × Nat × Nat :=
  let g := z + 719468
  let era := g / 146097
  let doe := g % 146097
  let yoe := (doe - doe / 1460 + doe / 36524 - doe / 146096) / 365
  let doy := doe - (365 * yoe + yoe / 4 - yoe / 100)
  let mp := (5 * doy + 2) / 153
  let d := doy - (153 * mp + 2) / 5 + 1
  let m := if mp < 10 then mp + 3 else mp - 9
  let y := if m ≤ 2 then yoe + era * 400 + 1 else yoe + era * 400
  (y, m, d)

/-- strftime "%Y-%m-%d" applied to a day count since the epoch. -/
def formatDate (z : Nat) : String :=
  let c := civilFromDays z
  String.mk (pad4 c.1 ++ '-' :: pad2 c.2.1 ++ '-' :: pad2 c.2.2)

/-- Shape check for a character list: four digits, a dash, two digits,
    a dash, two digits. -/
def YMDshape (l : List Char) : Bool :=
  match l with
  | [y1, y2, y3, y4, h1, m1, m2, h2, d1, d2] =>
      y1.isDigit && y2.isDigit && y3.isDigit && y4.isDigit &&
      h1 == '-' && m1.isDigit && m2.isDigit && h2 == '-' &&
      d1.isDigit && d2.isDigit
  | _ => false

/-- A string is in YYYY-MM-DD format when its characters have the
    dash-separated digit shape. -/
def isYMD (s : String) : Bool := YMDshape s.data

/-! ## get_date_range (main.py lines 19-35) -/

/-- get_date_range: end_date = now, start_date = now - timedelta(days=days_back),
    both rendered through strftime "%Y-%m-%d" (main.py lines 29-35). -/
def get_date_range (days_back : Nat) (nowSec : Nat) : String × String :=
  (formatDate ((nowSec - days_back * secondsPerDay) / secondsPerDay),
   formatDate (nowSec / secondsPerDay))

/-- Default of the days_back parameter of get_date_range (main.py line 19). -/
def get_date_range_default_days_back : Nat := 7

/-- Look-back advertised by the startup banner, "Busca: Últimos 7 dias
    (dinâmico)" (main.py line 96). -/
def banner_search_days : Nat := 7

theorem digitChar_isDigit (n : Nat) : (digitChar n).isDigit = true := by
  unfold digitChar
  split_ifs <;> decide

theorem YMDshape_build (y m d : Nat) :
    YMDshape (pad4 y ++ '-' :: pad2 m ++ '-' :: pad2 d) = true := by
  simp [YMDshape, pad4, pad2, digitChar_isDigit]

theorem isYMD_formatDate (z : Nat) : isYMD (formatDate z) = true :=
  YMDshape_build (civilFromDays z).1 (civilFromDays z).2.1 (civilFromDays z).2.2

/-- Subtracting days_back days and truncating to the day is truncating
    to the day and subtracting days_back, when the timestamp stays
    nonnegative (Python datetime cannot go below year 1 anyway). -/
theorem get_date_range_days (db t : Nat) (h : db * secondsPerDay ≤ t) :
    get_date_range db t =
      (formatDate (t / secondsPerDay - db), formatDate (t / secondsPerDay)) := by
  have e : (t - db * secondsPerDay) / secondsPerDay = t / secondsPerDay - db := by
    simp only [secondsPerDay] at h ⊢
    omega
  simp only [get_date_range, e]

/-- C8: for every days_back, get_date_range returns the pair of
    YYYY-MM-DD strings for the days (now - days_back, now): the start
    day is exactly days_back days before the end day (both taken from
    the same now), so the window satisfies start ≤ end.  The hypothesis
    restricts now to timestamps from which the look-back stays inside
    the model's nonnegative (epoch-based) range, mirroring the range a
    Python datetime can represent. -/
theorem C8_get_date_range_format (db t : Nat) (h : db * secondsPerDay ≤ t) :
    get_date_range db t =
      (formatDate (t / secondsPerDay - db), formatDate (t / secondsPerDay)) ∧
    (t / secondsPerDay - db) + db = t / secondsPerDay ∧
    t / secondsPerDay - db ≤ t / secondsPerDay ∧
    isYMD (get_date_range db t).1 = true ∧
    isYMD (get_date_range db t).2 = true := by
  refine ⟨get_date_range_days db t h, ?_, Nat.sub_le _ _, ?_, ?_⟩
  · have hdb : db ≤ t / secondsPerDay := by
      simp only [secondsPerDay] at h ⊢
      omega
    omega
  · rw [get_date_range_days db t h]
    exact isYMD_formatDate _
  · rw [get_date_range_days db t h]
    exact isYMD_formatDate _

/-- C8 witness: days_back = 7 one week after the epoch; the window is
    1970-01-01 to 1970-01-08. -/
theorem C8_get_date_range_format_witness :
    7 * secondsPerDay ≤ 691200 ∧
    (get_date_range 7 691200 =
      (formatDate (691200 / secondsPerDay - 7), formatDate (691200 / secondsPerDay)) ∧
    (691200 / secondsPerDay - 7) + 7 = 691200 / secondsPerDay ∧
    691200 / secondsPerDay - 7 ≤ 691200 / secondsPerDay ∧
    isYMD (get_date_range 7 691200).1 = true ∧
    isYMD (get_date_range 7 691200).2 = true) :=
  ⟨by decide, C8_get_date_range_format 7 691200 (by decide)⟩

/-! ## run_cycle (main.py lines 38-76) -/

/-- Dict returned by agent.run: keys order_ids, appeals_sent,
    appeals_skipped, errors (as read by main.py lines 70-73 and
    156-159). -/
structure AgentResult where
  order_ids : List Nat
  appeals_sent : Nat
  appeals_skipped : Nat
  errors : List String
deriving Repr, DecidableEq

/-- Keyword arguments of detailed_logger.log_cycle_summary
    (main.py lines 68-74). -/
structure CycleSummary where
  cycle_number : Nat
  orders_found : Nat
  orders_processed : Nat
  orders_skipped : Nat
  errors : Nat
deriving Repr, DecidableEq

/-- Observable behaviour of one run_cycle call: the period it logs
    (line 59), the summary it hands to the detailed logger (lines
    68-74) and the dict it returns (line 76). -/
structure RunCycleOut where
  period : String × String
  result : AgentResult
  summary : CycleSummary
deriving Repr, DecidableEq

/-- run_cycle: computes start_date, end_date = get_date_range(days_back=1)
    from the clock at its start (line 57), calls agent.run on that
    window and the page size (lines 61-65), logs the cycle summary
    derived from the result (lines 68-74) and returns the result
    unchanged (line 76).  agent.run is an external collaborator,
    abstracted as a function of (start_date, end_date, page_size). -/
def run_cycle (agentRun : String → String → Nat → AgentResult)
    (page_size : Nat) (cycle_number : Nat) (nowSec : Nat) : RunCycleOut :=
  let period := get_date_range 1 nowSec
  let result := agentRun period.1 period.2 page_size
  { period := period
    result := result
    summary :=
      { cycle_number := cycle_number
        orders_found := result.order_ids.length
        orders_processed := result.appeals_sent
        orders_skipped := result.appeals_skipped
        errors := result.errors.length } }

/-! ## Scheduler loop (main.py lines 135-186)

One loop iteration is driven by an oracle value `CycleSig` describing
the environment's behaviour during that cycle: how the run_cycle call
ends (returns a dict, raises an Exception — caught by the inner
`except Exception` at line 175 — or is cut by KeyboardInterrupt, which
that handler does not catch), how many seconds the cycle takes, and
whether the 900-second time.sleep (line 186) completes or is cut by
KeyboardInterrupt. -/

/-- wait_seconds = 900 (main.py line 178). -/
def wait_seconds : Nat := 900

/-- Python exception classes relevant to main: KeyboardInterrupt is a
    BaseException not caught by `except Exception`. -/
inductive PyErr
  | keyboardInterrupt
  | exc (msg : String)
deriving Repr, DecidableEq

/-- How the run_cycle call of one iteration ends. -/
inductive CycleBody
  | ok (r : AgentResult)
  | raises (msg : String)
  | interrupt
deriving Repr, DecidableEq

/-- Whether the time.sleep of one iteration completes. -/
inductive WaitOutcome
  | slept
  | interrupt
deriving Repr, DecidableEq

/-- Oracle for one scheduler iteration. -/
structure CycleSig where
  body : CycleBody
  duration : Nat
  wait : WaitOutcome
deriving Repr, DecidableEq

/-- True when neither the cycle body nor the sleep is hit by
    KeyboardInterrupt. -/
def CycleSig.noInterrupt (c : CycleSig) : Bool :=
  (match c.body with
   | CycleBody.interrupt => false
   | _ => true) &&
  (match c.wait with
   | WaitOutcome.interrupt => false
   | _ => true)

/-- Scheduler loop state: cycles completed so far (`cycle_number`
    before the `+= 1` of line 136) and the wall clock in seconds. -/
structure LoopState where
  cycleNumber : Nat
  clock : Nat
deriving Repr, DecidableEq

/-- Observable record of one loop iteration: cycle number, the clock
    when the cycle started and when run_cycle returned or raised, the
    period run_cycle logged, the summary written by the detailed logger
    (none when run_cycle raised or was interrupted), the four counts
    printed by main's console summary (lines 156-159), whether the
    logger.error of line 176 ran, and whether the full 900-second sleep
    completed. -/
structure IterRecord where
  cycleNumber : Nat
  startTime : Nat
  period : String × String
  summaryLogged : Option CycleSummary
  consoleSummary : Option (Nat × Nat × Nat × Nat)
  errorLogged : Bool
  endTime : Nat
  waited : Bool
deriving Repr, DecidableEq

/-- One iteration of the while-True loop (lines 135-186).  Returns the
    iteration's record and `some` next state when control reaches the
    top of the loop again, or `none` when KeyboardInterrupt escapes to
    the outer handler.  The period is computed at line 57 before
    agent.run, so it is recorded even for an interrupted cycle body. -/
def iter (c : CycleSig) (page_size : Nat) (s : LoopState) :
    IterRecord × Option LoopState :=
  let n := s.cycleNumber + 1
  let tEnd := s.clock + c.duration
  match c.body with
  | CycleBody.interrupt =>
      ({ cycleNumber := n, startTime := s.clock,
         period := get_date_range 1 s.clock,
         summaryLogged := none, consoleSummary := none,
         errorLogged := false, endTime := tEnd, waited := false }, none)
  | CycleBody.raises _ =>
      match c.wait with
      | WaitOutcome.slept =>
          ({ cycleNumber := n, startTime := s.clock,
             period := get_date_range 1 s.clock,
             summaryLogged := none, consoleSummary := none,
             errorLogged := true, endTime := tEnd, waited := true },
           some ⟨n, tEnd + wait_seconds⟩)
      | WaitOutcome.interrupt =>
          ({ cycleNumber := n, startTime := s.clock,
             period := get_date_range 1 s.clock,
             summaryLogged := none, consoleSummary := none,
             errorLogged := true, endTime := tEnd, waited := false }, none)
  | CycleBody.ok r =>
      let rc := run_cycle (fun _ _ _ => r) page_size n s.clock
      match c.wait with
      | WaitOutcome.slept =>
          ({ cycleNumber := n, startTime := s.clock,
             period := rc.period,
             summaryLogged := some rc.summary,
             consoleSummary := some (r.order_ids.length, r.appeals_sent,
               r.appeals_skipped, r.errors.length),
             errorLogged := false, endTime := tEnd, waited := true },
           some ⟨n, tEnd + wait_seconds⟩)
      | WaitOutcome.interrupt =>
          ({ cycleNumber := n, startTime := s.clock,
             period := rc.period,
             summaryLogged := some rc.summary,
             consoleSummary := some (r.order_ids.length, r.appeals_sent,
               r.appeals_skipped, r.errors.length),
             errorLogged := false, endTime := tEnd, waited := false }, none)

/-- Prepend an iteration record to a loop run. -/
def consTrace (r : IterRecord) (p : List IterRecord × Option LoopState) :
    List IterRecord × Option LoopState :=
  (r :: p.1, p.2)

/-- Run the scheduler loop for at most `fuel` iterations; the second
    component is `some` final state when the loop is still running
    after `fuel` iterations, `none` when KeyboardInterrupt ended it. -/
def runLoop (sig : Nat → CycleSig) (page_size : Nat) :
    Nat → LoopState → List IterRecord × Option LoopState
  | 0, s => ([], some s)
  | fuel + 1, s =>
      match iter (sig s.cycleNumber) page_size s with
      | (r, none) => ([r], none)
      | (r, some s2) => consTrace r (runLoop sig page_size fuel s2)

/-! ## main (main.py lines 79-215)

The initialization phase binds, in order: settings (line 89),
api_client (line 100), llm_client (line 103), database (line 106),
detailed_logger (line 107), the initial stats call (line 109) and the
agent (line 118).  The KeyboardInterrupt handler (lines 188-210) reads
the locals `database` (line 195) and `api_client` (line 209); the
Exception handler (lines 212-215) reads `api_client` (line 214).  In
Python, reading a local that was never bound raises NameError /
UnboundLocalError, which neither handler catches; the model reproduces
this by tracking how far initialization got before a fault. -/

/-- Initialization steps of main, in source order (lines 89-118). -/
inductive InitStep
  | loadSettings
  | apiClient
  | llmClient
  | database
  | detailedLogger
  | initialStats
  | agent
deriving Repr, DecidableEq

/-- Position of an initialization step in source order. -/
def InitStep.idx : InitStep → Nat
  | InitStep.loadSettings => 0
  | InitStep.apiClient => 1
  | InitStep.llmClient => 2
  | InitStep.database => 3
  | InitStep.detailedLogger => 4
  | InitStep.initialStats => 5
  | InitStep.agent => 6

/-- How the main process run ends (within the observed fuel). -/
inductive MainOutcome
  | finished (code : Nat) (finalStatsReported : Bool) (clientClosed : Bool)
  | uncaughtError (msg : String)
  | stillRunning (s : LoopState)
deriving Repr, DecidableEq

/-- main: if a fault hits initialization step `step`, the matching
    outer handler runs with only the locals bound by the completed
    earlier steps:
    the KeyboardInterrupt handler needs `database` (bound once step
    index 3 completed, i.e. the fault index is at least 4) and then
    `api_client`, and returns 0; the Exception handler needs
    `api_client` (bound once step index 1 completed, i.e. the fault
    index is at least 2), and returns 1 after logging and closing.
    Reading an unbound local raises NameError out of main.
    With no initialization fault, the loop runs; if KeyboardInterrupt
    ends it, the handler reports the database stats, closes the api
    client and returns 0. -/
def mainModel (initFault : Option (InitStep × PyErr)) (sig : Nat → CycleSig)
    (page_size fuel t0 : Nat) : MainOutcome × List IterRecord :=
  match initFault with
  | some (step, PyErr.keyboardInterrupt) =>
      if 4 ≤ step.idx then (MainOutcome.finished 0 true true, [])
      else (MainOutcome.uncaughtError "NameError: database", [])
  | some (step, PyErr.exc _) =>
      if 2 ≤ step.idx then (MainOutcome.finished 1 false true, [])
      else (MainOutcome.uncaughtError "NameError: api_client", [])
  | none =>
      let out := runLoop sig page_size fuel ⟨0, t0⟩
      match out.2 with
      | some s => (MainOutcome.stillRunning s, out.1)
      | none => (MainOutcome.finished 0 true true, out.1)

/-! ## Day-granularity fetch windows -/

/-- Day-number window a cycle starting at second `t` queries:
    get_date_range(days_back=1) renders the days (t - 86400) / 86400
    and t / 86400. -/
def windowDays (t : Nat) : Nat × Nat :=
  ((t - secondsPerDay) / secondsPerDay, t / secondsPerDay)

/-- Two inclusive day ranges overlap when neither is entirely past the
    other. -/
def windowsOverlap (w1 w2 : Nat × Nat) : Prop :=
  w2.1 ≤ w1.2 ∧ w1.1 ≤ w2.2

instance (w1 w2 : Nat × Nat) : Decidable (windowsOverlap w1 w2) := by
  unfold windowsOverlap
  infer_instance

/-! ## Scheduler lemmas -/

theorem iter_spec (c : CycleSig) (ps : Nat) (s : LoopState) :
    (iter c ps s).1.startTime = s.clock ∧
    (iter c ps s).1.cycleNumber = s.cycleNumber + 1 ∧
    (iter c ps s).1.endTime = s.clock + c.duration ∧
    (∀ s2, (iter c ps s).2 = some s2 →
      s2 = ⟨s.cycleNumber + 1, s.clock + c.duration + wait_seconds⟩) := by
  rcases c with ⟨b, dur, w⟩
  cases b <;> cases w <;>
    refine ⟨rfl, rfl, rfl, ?_⟩ <;> intro s2 h <;>
    first
      | exact Option.noConfusion h
      | { injection h with h2; exact h2.symm }

theorem iter_some_of_noInterrupt (c : CycleSig) (ps : Nat) (s : LoopState)
    (h : c.noInterrupt = true) :
    (iter c ps s).2 = some ⟨s.cycleNumber + 1, s.clock + c.duration + wait_seconds⟩ := by
  rcases c with ⟨b, dur, w⟩
  cases b <;> cases w <;>
    first
      | rfl
      | simp [CycleSig.noInterrupt] at h

theorem runLoop_head_start (sig : Nat → CycleSig) (ps : Nat) :
    ∀ (fuel : Nat) (s : LoopState) (r : IterRecord),
      (runLoop sig ps fuel s).1.head? = some r →
      r.startTime = s.clock ∧ r.cycleNumber = s.cycleNumber + 1 := by
  intro fuel s r h
  cases fuel with
  | zero => simp [runLoop] at h
  | succ f =>
      have hs := iter_spec (sig s.cycleNumber) ps s
      rcases hi : iter (sig s.cycleNumber) ps s with ⟨rec, cont⟩
      rw [hi] at hs
      cases cont <;> simp [runLoop, hi, consTrace] at h <;>
        exact h ▸ ⟨hs.1, hs.2.1⟩

/-- Relation between consecutive iteration records: the next cycle
    starts exactly wait_seconds after the previous cycle ended, hence
    strictly after it ended, and cycle numbers are consecutive. -/
def seqRel (a b : IterRecord) : Prop :=
  b.startTime = a.endTime + wait_seconds ∧
  a.endTime < b.startTime ∧
  b.cycleNumber = a.cycleNumber + 1

theorem runLoop_chain (sig : Nat → CycleSig) (ps : Nat) :
    ∀ (fuel : Nat) (s : LoopState),
      List.Chain' seqRel (runLoop sig ps fuel s).1 := by
  intro fuel
  induction fuel with
  | zero => intro s; simp [runLoop]
  | succ f ih =>
      intro s
      have hs := iter_spec (sig s.cycleNumber) ps s
      rcases hi : iter (sig s.cycleNumber) ps s with ⟨rec, cont⟩
      rw [hi] at hs
      cases cont with
      | none => simp [runLoop, hi]
      | some s2 =>
          have hs2 := hs.2.2.2 s2 rfl
          simp only [runLoop, hi, consTrace]
          rw [List.chain'_cons']
          refine ⟨?_, ih s2⟩
          intro b hb
          obtain ⟨hb1, hb2⟩ := runLoop_head_start sig ps f s2 b hb
          refine ⟨?_, ?_, ?_⟩
          · rw [hb1, hs2, hs.2.2.1]
          · rw [hb1, hs2, hs.2.2.1]
            simp [wait_seconds]
          · rw [hb2, hs2, hs.2.1]

theorem runLoop_noStop (sig : Nat → CycleSig) (ps : Nat)
    (hni : ∀ n, (sig n).noInterrupt = true) :
    ∀ (fuel : Nat) (s : LoopState),
      ((runLoop sig ps fuel s).2).isSome = true ∧
      (runLoop sig ps fuel s).1.length = fuel := by
  intro fuel
  induction fuel with
  | zero => intro s; simp [runLoop]
  | succ f ih =>
      intro s
      have hc := iter_some_of_noInterrupt (sig s.cycleNumber) ps s (hni s.cycleNumber)
      rcases hi : iter (sig s.cycleNumber) ps s with ⟨rec, cont⟩
      rw [hi] at hc
      subst hc
      simp only [runLoop, hi, consTrace]
      obtain ⟨h1, h2⟩ := ih ⟨s.cycleNumber + 1, s.clock + (sig s.cycleNumber).duration + wait_seconds⟩
      exact ⟨h1, by simp [h2]⟩

/-- True exactly on the still-running outcome. -/
def MainOutcome.isRunning : MainOutcome → Bool
  | MainOutcome.stillRunning _ => true
  | _ => false

/-! ## Concrete oracles for witnesses -/

/-- Example successful agent result. -/
def exAgentResult : AgentResult := ⟨[101, 102], 1, 1, []⟩

/-- Example agent result where every discovered order failed. -/
def exAllFailed : AgentResult :=
  ⟨[11, 12, 13], 0, 0, ["order 11 failed", "order 12 failed", "order 13 failed"]⟩

/-- Oracle: every cycle raises an Exception. -/
def sigRaises : Nat → CycleSig :=
  fun _ => ⟨CycleBody.raises "connection refused", 5, WaitOutcome.slept⟩

/-- Oracle: KeyboardInterrupt hits the first cycle mid-cycle. -/
def sigInterrupt : Nat → CycleSig :=
  fun _ => ⟨CycleBody.interrupt, 5, WaitOutcome.slept⟩

/-- Oracle: every cycle succeeds. -/
def sigOk : Nat → CycleSig :=
  fun _ => ⟨CycleBody.ok exAgentResult, 5, WaitOutcome.slept⟩

/-! ## Claim theorems on run_cycle and the scheduler -/

/-- C1: run_cycle computes its fetch window dynamically at cycle start
    from the current clock as get_date_range(days_back=1), i.e. the
    day pair (now - 1 day, now) — and the loop hands it the clock at
    that cycle's start — although get_date_range's default parameter
    and the startup banner both say 7 days. -/
theorem C1_run_cycle_window (f : String → String → Nat → AgentResult)
    (ps n t ps2 : Nat) (c : CycleSig) (s : LoopState)
    (h : secondsPerDay ≤ t) :
    (run_cycle f ps n t).period = get_date_range 1 t ∧
    get_date_range 1 t =
      (formatDate (t / secondsPerDay - 1), formatDate (t / secondsPerDay)) ∧
    (iter c ps2 s).1.period = get_date_range 1 s.clock ∧
    get_date_range_default_days_back = 7 ∧
    banner_search_days = 7 := by
  refine ⟨rfl, ?_, ?_, rfl, rfl⟩
  · exact get_date_range_days 1 t (by simpa using h)
  · rcases c with ⟨b, dur, w⟩
    cases b <;> cases w <;> rfl

/-- C1 witness at the concrete clock 172800 (1970-01-03 00:00:00). -/
theorem C1_run_cycle_window_witness :
    secondsPerDay ≤ 172800 ∧
    ((run_cycle (fun _ _ _ => exAgentResult) 50 1 172800).period =
        get_date_range 1 172800 ∧
      get_date_range 1 172800 =
        (formatDate (172800 / secondsPerDay - 1), formatDate (172800 / secondsPerDay)) ∧
      (iter ⟨CycleBody.ok exAgentResult, 5, WaitOutcome.slept⟩ 50 ⟨0, 172800⟩).1.period =
        get_date_range 1 172800 ∧
      get_date_range_default_days_back = 7 ∧
      banner_search_days = 7) :=
  ⟨by decide,
   C1_run_cycle_window (fun _ _ _ => exAgentResult) 50 1 172800 50
     ⟨CycleBody.ok exAgentResult, 5, WaitOutcome.slept⟩ ⟨0, 172800⟩ (by decide)⟩

/-- C2: an Exception raised by run_cycle is caught inside the loop
    body, logged there, and the iteration still reaches the wait and
    hands control to the next cycle; when no KeyboardInterrupt occurs,
    the loop runs all its iterations and the process is still running
    afterwards — no run_cycle Exception ends loop or process. -/
theorem C2_cycle_exception_isolated (sig : Nat → CycleSig) (ps fuel t0 : Nat)
    (hni : ∀ n, (sig n).noInterrupt = true) :
    (∀ (c : CycleSig) (s : LoopState) (msg : String),
        c.body = CycleBody.raises msg → c.wait = WaitOutcome.slept →
        (iter c ps s).1.errorLogged = true ∧
        (iter c ps s).2 =
          some ⟨s.cycleNumber + 1, s.clock + c.duration + wait_seconds⟩) ∧
    ((runLoop sig ps fuel ⟨0, t0⟩).2).isSome = true ∧
    (runLoop sig ps fuel ⟨0, t0⟩).1.length = fuel ∧
    (mainModel none sig ps fuel t0).1.isRunning = true := by
  obtain ⟨h1, h2⟩ := runLoop_noStop sig ps hni fuel ⟨0, t0⟩
  refine ⟨?_, h1, h2, ?_⟩
  · intro c s msg hb hw
    rcases c with ⟨b, dur, w⟩
    cases hb
    cases hw
    exact ⟨rfl, rfl⟩
  · rcases ho : (runLoop sig ps fuel ⟨0, t0⟩).2 with _ | sfin
    · rw [ho] at h1
      cases h1
    · simp [mainModel, ho, MainOutcome.isRunning]

/-- C2 witness: three cycles that all raise; the loop survives them. -/
theorem C2_cycle_exception_isolated_witness :
    (∀ n, (sigRaises n).noInterrupt = true) ∧
    ((∀ (c : CycleSig) (s : LoopState) (msg : String),
        c.body = CycleBody.raises msg → c.wait = WaitOutcome.slept →
        (iter c 10 s).1.errorLogged = true ∧
        (iter c 10 s).2 =
          some ⟨s.cycleNumber + 1, s.clock + c.duration + wait_seconds⟩) ∧
      ((runLoop sigRaises 10 3 ⟨0, 0⟩).2).isSome = true ∧
      (runLoop sigRaises 10 3 ⟨0, 0⟩).1.length = 3 ∧
      (mainModel none sigRaises 10 3 0).1.isRunning = true) :=
  ⟨fun _ => rfl, C2_cycle_exception_isolated sigRaises 10 3 0 (fun _ => rfl)⟩

/-- C3: cycles are strictly sequential and never overlap: in every loop
    trace, each next cycle starts exactly wait_seconds = 900 s (15 min)
    after the previous cycle's run_cycle returned or raised — hence
    strictly after it — with consecutive cycle numbers. -/
theorem C3_cycles_sequential_fixed_wait (sig : Nat → CycleSig)
    (ps fuel : Nat) (s : LoopState) :
    wait_seconds = 900 ∧ wait_seconds = 15 * 60 ∧
    List.Chain' seqRel (runLoop sig ps fuel s).1 :=
  ⟨rfl, rfl, runLoop_chain sig ps fuel s⟩

/-- C4 counterexample: a cycle of duration 86000 s — under one day —
    starting at second 8726300 (day 100, 23:58:20).  The loop hands
    the next cycle the start clock 8726300 + 86000 + 900 = 8813200
    (day 102), so the consecutive day windows are [99, 100] and
    [101, 102]: disjoint, although the duration is under one day. -/
theorem C4_counterexample_windows_disjoint :
    86000 < 86400 ∧
    (iter ⟨CycleBody.ok exAgentResult, 86000, WaitOutcome.slept⟩ 50 ⟨0, 8726300⟩).2 =
      some ⟨1, 8726300 + 86000 + wait_seconds⟩ ∧
    windowDays 8726300 = (99, 100) ∧
    windowDays (8726300 + 86000 + wait_seconds) = (101, 102) ∧
    ¬ windowsOverlap (windowDays 8726300)
        (windowDays (8726300 + 86000 + wait_seconds)) := by
  refine ⟨by decide, rfl, by decide, by decide, by decide⟩

/-- C4 amended: consecutive cycles' day windows overlap provided the
    cycle duration plus the 900-second wait totals at most one day
    (duration ≤ 85500 s), not merely a duration under one day: each
    window reaches one day back from its own start, and the next start
    is duration + 900 s after the previous one. -/
theorem C4_overlap_amended (c : CycleSig) (ps : Nat) (s s2 : LoopState)
    (hd : c.duration + wait_seconds ≤ secondsPerDay)
    (hc : secondsPerDay ≤ s.clock)
    (hcont : (iter c ps s).2 = some s2) :
    windowsOverlap (windowDays s.clock) (windowDays s2.clock) := by
  have hs2 := (iter_spec c ps s).2.2.2 s2 hcont
  subst hs2
  simp only [windowDays, windowsOverlap, wait_seconds, secondsPerDay] at hd hc ⊢
  constructor <;> omega

/-- C4 amended witness: a 60-second cycle starting at 172800. -/
theorem C4_overlap_amended_witness :
    (⟨CycleBody.ok exAgentResult, 60, WaitOutcome.slept⟩ : CycleSig).duration +
        wait_seconds ≤ secondsPerDay ∧
    secondsPerDay ≤ 172800 ∧
    windowsOverlap (windowDays 172800) (windowDays 173760) :=
  ⟨by decide, by decide,
   C4_overlap_amended ⟨CycleBody.ok exAgentResult, 60, WaitOutcome.slept⟩ 50
     ⟨0, 172800⟩ ⟨1, 173760⟩ (by decide) (by decide) (by decide)⟩

/-- C5: when KeyboardInterrupt ends the loop — mid-cycle (the inner
    handler catches only Exception) or at the wait — main's outer
    handler reports the final database stats, closes the api client
    and returns 0. -/
theorem C5_graceful_shutdown (sig : Nat → CycleSig) (ps fuel t0 : Nat)
    (hint : (runLoop sig ps fuel ⟨0, t0⟩).2 = none) :
    (mainModel none sig ps fuel t0).1 = MainOutcome.finished 0 true true := by
  simp [mainModel, hint]

/-- C5 witness: KeyboardInterrupt mid-cycle in the first cycle. -/
theorem C5_graceful_shutdown_witness :
    (runLoop sigInterrupt 10 2 ⟨0, 0⟩).2 = none ∧
    (mainModel none sigInterrupt 10 2 0).1 = MainOutcome.finished 0 true true :=
  ⟨by decide, C5_graceful_shutdown sigInterrupt 10 2 0 (by decide)⟩

/-- C6: evaluation at the failing input.  An Exception raised by
    load_settings() — initialization failing before APIClient is
    bound — reaches the `except Exception` handler, whose
    api_client.close() call reads a local that was never bound; main
    terminates with that NameError instead of closing a client and
    returning 1. -/
theorem C6_init_failure_handler_crash :
    (mainModel (some (InitStep.loadSettings, PyErr.exc "missing configuration"))
        sigOk 10 3 0).1 =
      MainOutcome.uncaughtError "NameError: api_client" ∧
    (∀ b1 b2, (mainModel (some (InitStep.loadSettings, PyErr.exc "missing configuration"))
        sigOk 10 3 0).1 ≠ MainOutcome.finished 1 b1 b2) := by
  constructor
  · rfl
  · decide

/-- C7: whenever run_cycle's agent call returns a result — no matter
    how many per-order errors it carries, even one for every order —
    the iteration logs the cycle summary with the found, sent, skipped
    and error counts of that result, and main prints the same four
    counts. -/
theorem C7_cycle_summary_always (c : CycleSig) (ps : Nat) (s : LoopState)
    (r : AgentResult) (hb : c.body = CycleBody.ok r) :
    (iter c ps s).1.summaryLogged =
      some { cycle_number := s.cycleNumber + 1
             orders_found := r.order_ids.length
             orders_processed := r.appeals_sent
             orders_skipped := r.appeals_skipped
             errors := r.errors.length } ∧
    (iter c ps s).1.consoleSummary =
      some (r.order_ids.length, r.appeals_sent, r.appeals_skipped,
        r.errors.length) := by
  rcases c with ⟨b, dur, w⟩
  cases hb
  cases w <;> exact ⟨rfl, rfl⟩

/-- C7 witness: a cycle where every one of the three orders failed
    still logs and prints the summary (found 3, sent 0, skipped 0,
    errors 3). -/
theorem C7_cycle_summary_always_witness :
    (⟨CycleBody.ok exAllFailed, 30, WaitOutcome.slept⟩ : CycleSig).body =
      CycleBody.ok exAllFailed ∧
    ((iter ⟨CycleBody.ok exAllFailed, 30, WaitOutcome.slept⟩ 10 ⟨0, 172800⟩).1.summaryLogged =
      some { cycle_number := 1
             orders_found := 3
             orders_processed := 0
             orders_skipped := 0
             errors := 3 } ∧
    (iter ⟨CycleBody.ok exAllFailed, 30, WaitOutcome.slept⟩ 10 ⟨0, 172800⟩).1.consoleSummary =
      some (3, 0, 0, 3)) :=
  ⟨rfl,
   C7_cycle_summary_always ⟨CycleBody.ok exAllFailed, 30, WaitOutcome.slept⟩ 10
     ⟨0, 172800⟩ exAllFailed rfl⟩

/-- C10: run_cycle returns exactly the dict produced by agent.run on
    the window and page size, unchanged, and the summary it logs is
    derived purely from that dict: found = length of order_ids,
    processed = appeals_sent, skipped = appeals_skipped, errors =
    length of the errors list. -/
theorem C10_run_cycle_frame (f : String → String → Nat → AgentResult)
    (ps n t : Nat) :
    (run_cycle f ps n t).result = f (get_date_range 1 t).1 (get_date_range 1 t).2 ps ∧
    (run_cycle f ps n t).summary.cycle_number = n ∧
    (run_cycle f ps n t).summary.orders_found =
      (run_cycle f ps n t).result.order_ids.length ∧
    (run_cycle f ps n t).summary.orders_processed =
      (run_cycle f ps n t).result.appeals_sent ∧
    (run_cycle f ps n t).summary.orders_skipped =
      (run_cycle f ps n t).result.appeals_skipped ∧
    (run_cycle f ps n t).summary.errors =
      (run_cycle f ps n t).result.errors.length :=
  ⟨rfl, rfl, rfl, rfl, rfl, rfl⟩

/-! ## Spec-modelled Cycle Orchestrator and Ledger (for C9)

The repository's agent (agent_graph.py / RefundContestationAgent) and
ledger (database.py / OrderDatabase) are referenced by main.py but
their code is not under src/; the definitions below model them from
the spec, sections 3 (Ledger Record), 4.1 (Cycle Orchestrator) and
4.2 (Ledger). -/

/-- Modelled from the spec: terminal processing statuses of a Ledger
    Record (section 3: pending is never persisted; only succeeded and
    failed are stored). -/
inductive LStatus
  | succeeded
  | failed
deriving Repr, DecidableEq

/-- Modelled from the spec: the Ledger as a record store keyed by order
    identifier (sections 4.2 and 6); database.py is not under src/. -/
def Ledger : Type := List (Nat × LStatus)

/-- Modelled from the spec: Ledger `get(orderId)` (section 4.2). -/
def lookupL : Ledger → Nat → Option LStatus
  | [], _ => none
  | (k, v) :: rest, o => if k = o then some v else lookupL rest o

/-- Modelled from the spec: Ledger `put(orderId, status)` (section
    4.2): overwrites a failed record with a new attempt's outcome and
    no-ops on an attempt to overwrite a succeeded record (succeeded is
    terminal). -/
def putL (L : Ledger) (o : Nat) (st : LStatus) : Ledger :=
  match lookupL L o with
  | some LStatus.succeeded => L
  | _ => (o, st) :: List.filter (fun p => p.1 != o) L

/-- Modelled from the spec: the Cycle Result of one orchestrator pass
    (section 3), with the identifier lists behind its counts and the
    collaborator invocations made, so that idempotency is statable. -/
structure SpecCycleResult where
  found : List Nat
  sentIds : List Nat
  skippedIds : List Nat
  errIds : List Nat
  composerCalls : List Nat
  submitterCalls : List Nat
deriving Repr, DecidableEq

/-- Empty cycle result accumulator. -/
def emptyRes : SpecCycleResult := ⟨[], [], [], [], [], []⟩

/-- Modelled from the spec: per-candidate processing of the Cycle
    Orchestrator (section 4.1 steps 2-4): skip (no collaborator call,
    no write) when the Ledger holds succeeded; otherwise invoke the
    Composer — on failure record an error and a failed Ledger Record
    and continue — then the Submitter — on failure likewise; on
    success write a succeeded record and count the appeal as sent.
    The Composer and Submitter outcomes are oracles per order id. -/
def runCands (co so : Nat → Bool) : Ledger → List Nat → SpecCycleResult × Ledger
  | L, [] => (emptyRes, L)
  | L, o :: rest =>
    match lookupL L o with
    | some LStatus.succeeded =>
        let out := runCands co so L rest
        ({ out.1 with skippedIds := o :: out.1.skippedIds }, out.2)
    | _ =>
        if co o then
          if so o then
            let out := runCands co so (putL L o LStatus.succeeded) rest
            ({ out.1 with
                composerCalls := o :: out.1.composerCalls
                submitterCalls := o :: out.1.submitterCalls
                sentIds := o :: out.1.sentIds }, out.2)
          else
            let out := runCands co so (putL L o LStatus.failed) rest
            ({ out.1 with
                composerCalls := o :: out.1.composerCalls
                submitterCalls := o :: out.1.submitterCalls
                errIds := o :: out.1.errIds }, out.2)
        else
          let out := runCands co so (putL L o LStatus.failed) rest
          ({ out.1 with
              composerCalls := o :: out.1.composerCalls
              errIds := o :: out.1.errIds }, out.2)

/-- Modelled from the spec: one full orchestrator pass, runCycle
    (section 4.1): all candidate identifiers land in the found list
    regardless of processing. -/
def runCycleSpec (co so : Nat → Bool) (cands : List Nat) (L : Ledger) :
    SpecCycleResult × Ledger :=
  let out := runCands co so L cands
  ({ out.1 with found := cands }, out.2)

/-- Modelled from the spec: the inputs of one scheduled cycle — the
    candidates its window yields and its collaborator oracles. -/
structure CycleSpecInput where
  cands : List Nat
  co : Nat → Bool
  so : Nat → Bool

/-- Modelled from the spec: a sequence of cycles threading the Ledger
    (sections 4.3 and 5: cycles run sequentially, the Ledger is the
    only state carried across them). -/
def runCyclesSpec : List CycleSpecInput → Ledger → List SpecCycleResult × Ledger
  | [], L => ([], L)
  | c :: cs, L =>
      let out := runCycleSpec c.co c.so c.cands L
      let outs := runCyclesSpec cs out.2
      (out.1 :: outs.1, outs.2)

theorem runCyclesSpec_length (cs : List CycleSpecInput) (L : Ledger) :
    (runCyclesSpec cs L).1.length = cs.length := by
  induction cs generalizing L with
  | nil => rfl
  | cons c cs ih => simp [runCyclesSpec, ih]

theorem lookupL_filter_ne (o O : Nat) (h : o ≠ O) :
    ∀ L : List (Nat × LStatus),
      lookupL (List.filter (fun p => p.1 != o) L) O = lookupL L O := by
  intro L
  induction L with
  | nil => rfl
  | cons p rest ih =>
      rcases p with ⟨k, v⟩
      by_cases hk : k = o
      · subst hk
        have : ¬ (k = O) := h
        simp [List.filter, lookupL, this, ih]
      · have hb : (k != o) = true := bne_iff_ne.mpr hk
        by_cases hO : k = O
        · subst hO
          simp [List.filter, lookupL, hb]
        · simp [List.filter, lookupL, hb, hO, ih]

theorem lookupL_putL_ne (L : Ledger) (o O : Nat) (st : LStatus) (h : o ≠ O) :
    lookupL (putL L o st) O = lookupL L O := by
  unfold putL
  rcases hl : lookupL L o with _ | s
  · simp [lookupL, h, lookupL_filter_ne o O h L]
  · cases s
    · rfl
    · simp [lookupL, h, lookupL_filter_ne o O h L]

theorem runCands_succeeded (co so : Nat → Bool) (O : Nat) :
    ∀ (cands : List Nat) (L : Ledger),
      lookupL L O = some LStatus.succeeded →
      O ∉ (runCands co so L cands).1.composerCalls ∧
      O ∉ (runCands co so L cands).1.submitterCalls ∧
      O ∉ (runCands co so L cands).1.sentIds ∧
      (O ∈ cands → O ∈ (runCands co so L cands).1.skippedIds) ∧
      lookupL (runCands co so L cands).2 O = some LStatus.succeeded := by
  intro cands
  induction cands with
  | nil =>
      intro L hL
      refine ⟨?_, ?_, ?_, ?_, hL⟩ <;> simp [runCands, emptyRes]
  | cons o rest ih =>
      intro L hL
      by_cases ho : o = O
      · subst ho
        simp only [runCands, hL]
        obtain ⟨i1, i2, i3, i4, i5⟩ := ih L hL
        refine ⟨i1, i2, i3, ?_, i5⟩
        intro _
        exact List.mem_cons_self o _
      · have hne : lookupL (putL L o LStatus.succeeded) O = some LStatus.succeeded := by
          rw [lookupL_putL_ne L o O LStatus.succeeded ho]; exact hL
        have hnf : lookupL (putL L o LStatus.failed) O = some LStatus.succeeded := by
          rw [lookupL_putL_ne L o O LStatus.failed ho]; exact hL
        have hoO : ¬ (O = o) := fun e => ho e.symm
        rcases hlo : lookupL L o with _ | s
        · simp only [runCands, hlo]
          by_cases hco : co o
          · by_cases hso : so o
            · obtain ⟨i1, i2, i3, i4, i5⟩ := ih (putL L o LStatus.succeeded) hne
              simp only [hco, hso, if_true]
              refine ⟨?_, ?_, ?_, ?_, i5⟩
              · simp [List.mem_cons, hoO, i1]
              · simp [List.mem_cons, hoO, i2]
              · simp [List.mem_cons, hoO, i3]
              · intro hm
                rcases List.mem_cons.mp hm with he | hm2
                · exact absurd he hoO
                · exact i4 hm2
            · obtain ⟨i1, i2, i3, i4, i5⟩ := ih (putL L o LStatus.failed) hnf
              simp only [hco, hso, if_true, if_false]
              refine ⟨?_, ?_, i3, ?_, i5⟩
              · simp [List.mem_cons, hoO, i1]
              · simp [List.mem_cons, hoO, i2]
              · intro hm
                rcases List.mem_cons.mp hm with he | hm2
                · exact absurd he hoO
                · exact i4 hm2
          · obtain ⟨i1, i2, i3, i4, i5⟩ := ih (putL L o LStatus.failed) hnf
            simp only [hco, if_false]
            refine ⟨?_, i2, i3, ?_, i5⟩
            · simp [List.mem_cons, hoO, i1]
            · intro hm
              rcases List.mem_cons.mp hm with he | hm2
              · exact absurd he hoO
              · exact i4 hm2
        · cases s
          · simp only [runCands, hlo]
            obtain ⟨i1, i2, i3, i4, i5⟩ := ih L hL
            refine ⟨i1, i2, i3, ?_, i5⟩
            intro hm
            rcases List.mem_cons.mp hm with he | hm2
            · exact absurd he hoO
            · exact List.mem_cons_of_mem _ (i4 hm2)
          · simp only [runCands, hlo]
            by_cases hco : co o
            · by_cases hso : so o
              · obtain ⟨i1, i2, i3, i4, i5⟩ := ih (putL L o LStatus.succeeded) hne
                simp only [hco, hso, if_true]
                refine ⟨?_, ?_, ?_, ?_, i5⟩
                · simp [List.mem_cons, hoO, i1]
                · simp [List.mem_cons, hoO, i2]
                · simp [List.mem_cons, hoO, i3]
                · intro hm
                  rcases List.mem_cons.mp hm with he | hm2
                  · exact absurd he hoO
                  · exact i4 hm2
              · obtain ⟨i1, i2, i3, i4, i5⟩ := ih (putL L o LStatus.failed) hnf
                simp only [hco, hso, if_true, if_false]
                refine ⟨?_, ?_, i3, ?_, i5⟩
                · simp [List.mem_cons, hoO, i1]
                · simp [List.mem_cons, hoO, i2]
                · intro hm
                  rcases List.mem_cons.mp hm with he | hm2
                  · exact absurd he hoO
                  · exact i4 hm2
            · obtain ⟨i1, i2, i3, i4, i5⟩ := ih (putL L o LStatus.failed) hnf
              simp only [hco, if_false]
              refine ⟨?_, i2, i3, ?_, i5⟩
              · simp [List.mem_cons, hoO, i1]
              · intro hm
                rcases List.mem_cons.mp hm with he | hm2
                · exact absurd he hoO
                · exact i4 hm2

/-- C9: once a succeeded Ledger record exists for an order O, then
    across any later sequence of cycles — whatever candidates their
    windows yield and however the collaborators behave — no cycle
    invokes the Composer or the Submitter for O, O is never counted as
    sent, and every cycle that re-discovers O counts it as skipped. -/
theorem C9_idempotent_skip (O : Nat) (cs : List CycleSpecInput) (L : Ledger)
    (h : lookupL L O = some LStatus.succeeded) :
    List.Forall₂
      (fun (r : SpecCycleResult) (c : CycleSpecInput) =>
        O ∉ r.composerCalls ∧ O ∉ r.submitterCalls ∧ O ∉ r.sentIds ∧
        (O ∈ c.cands → O ∈ r.skippedIds))
      (runCyclesSpec cs L).1 cs := by
  induction cs generalizing L with
  | nil => exact List.Forall₂.nil
  | cons c cs ih =>
      obtain ⟨i1, i2, i3, i4, i5⟩ := runCands_succeeded c.co c.so O c.cands L h
      exact List.Forall₂.cons ⟨i1, i2, i3, i4⟩ (ih (runCands c.co c.so L c.cands).2 i5)

/-- Example ledger for the C9 witness: order 7 already succeeded. -/
def exLedger : Ledger := [(7, LStatus.succeeded)]

/-- Example cycle inputs for the C9 witness: one later cycle whose
    window re-discovers order 7 next to a new order 8, with both
    collaborators succeeding. -/
def exCycles : List CycleSpecInput :=
  [⟨[7, 8], fun _ => true, fun _ => true⟩]

/-- C9 witness: with order 7 already succeeded, the later cycle calls
    no collaborator for 7 and counts it as skipped. -/
theorem C9_idempotent_skip_witness :
    lookupL exLedger 7 = some LStatus.succeeded ∧
    List.Forall₂
      (fun (r : SpecCycleResult) (c : CycleSpecInput) =>
        7 ∉ r.composerCalls ∧ 7 ∉ r.submitterCalls ∧ 7 ∉ r.sentIds ∧
        (7 ∈ c.cands → 7 ∈ r.skippedIds))
      (runCyclesSpec exCycles exLedger).1 exCycles :=
  ⟨rfl, C9_idempotent_skip 7 exCycles exLedger rfl⟩

end AutoAppeal
